import Mathlib

/-!
Verification of the second-brain backend's content-ingestion and share-link
core against its specification.

The persistent store is modelled as an abstract document store (per the
specification's scoping, which treats storage itself as an external
collaborator specified only at its interface boundary): each collection is a
list of records in insertion order, `findOne` returns the first matching
record, `create` appends a record with a fresh store-generated id, and
`save` replaces the record with the same id.  Records carry the fields the
controllers read and write.  One field needs care: the controllers
read/write a `summary` property, but the Content schema in
`content.model.ts` declares no `summary` path, and under Mongoose's
default strict mode such a path is neither persisted nor queryable.  The
`ContentRec`-based definitions model the abstract store the specification
and the controller logic assume (a store in which `summary` persists); the
`StoredContent`-based "strict mode" definitions further down model the
schema as actually persisted, and are what settles the summary-reuse
behaviour of the real program.

Embedded operations (from `src/controller/content.controller.ts`,
`src/controller/link.controller.ts`, `src/services/content.service.ts`):
`addContentSource`, `addContent`, `getAllContent`, `deleteContent`,
`createLink`, `createBrainLink`, `getBrainLink`, `generateHash`.

Randomness (the `crypto.randomBytes` input of `generateHash`, and the fresh
hash used when a link is created) and the current time are passed as
explicit parameters.  The external summarizer `generateSummary` is passed
as a function parameter `gen` returning `Except` (it may fail); the third
component of `addContent`'s result records whether `gen` was invoked.
-/

namespace SecondBrain

/-- A Content document of the abstract store: the fields the content
controller reads and writes (`link`, `type`, `title`, `tags`, `userId`,
`source`, `summary`, `createdAt`).  The `type` field is named `ctype`
because `type` is reserved in Lean; tag and user references are opaque
ids.  `summary` is the empty string until computed or reused (an absent
summary is represented by `""`).  Caveat: the schema in
`content.model.ts` declares no `summary` path, so the program's store
never actually persists this field — `StoredContent` models the schema as
persisted; `ContentRec` is the store the controller logic and the
specification's data model assume. -/
structure ContentRec where
  id : Nat
  link : String
  ctype : String
  title : String
  tags : List Nat
  userId : Nat
  source : Option String
  summary : String
  createdAt : Nat
  deriving Repr, DecidableEq

/-- A persisted Source registry document (`source.model`): a name plus
store-generated id. -/
structure SourceRec where
  id : Nat
  name : String
  deriving Repr, DecidableEq

/-- A persisted Link (share token) document (`link.model`): a unique `hash`,
the owning user, and an optional content reference (`contentId` is absent
for a whole-collection "brain" link). -/
structure LinkRec where
  id : Nat
  hash : String
  userId : Nat
  contentId : Option Nat
  deriving Repr, DecidableEq

/-- The abstract document store: the three collections the core touches,
in insertion order, plus the next store-generated id. -/
structure DB where
  contents : List ContentRec
  sources : List SourceRec
  links : List LinkRec
  nextId : Nat
  deriving Repr, DecidableEq

/-- Removes the first element satisfying `p` (the effect of Mongo's
`findOneAndDelete`, which deletes a single matching document). -/
def removeFirst {α : Type} (p : α → Bool) : List α → List α
  | [] => []
  | x :: xs => if p x then xs else x :: removeFirst p xs

/-- The filter document `{ link, userId }` of the per-owner duplicate check
in `addContent`. -/
def dupFilter (link : String) (userId : Nat) (c : ContentRec) : Bool :=
  decide (c.link = link ∧ c.userId = userId)

/-- The filter document `{ link, summary: { $exists: true, $ne: "" } }` of
the summary-reuse lookup in `addContent`, over the abstract store in which
`summary` persists.  Against documents persisted by the actual schema the
condition never holds (see `strictSummaryFilter` and
`strictSummaryFilter_never_matches`). -/
def summaryFilter (link : String) (c : ContentRec) : Bool :=
  decide (c.link = link ∧ c.summary ≠ "")

/-- The filter document `{ name: source }` used on the Source registry. -/
def sourceNameFilter (name : String) (s : SourceRec) : Bool :=
  decide (s.name = name)

/-- The filter document `{ userId, contentId: { $exists: false } }`
selecting an owner's whole-collection share link. -/
def collectionLinkFilter (userId : Nat) (l : LinkRec) : Bool :=
  decide (l.userId = userId ∧ l.contentId = none)

/-- The filter document `{ hash }` used by the share-link resolvers. -/
def hashFilter (hash : String) (l : LinkRec) : Bool :=
  decide (l.hash = hash)

/-- The effect of `content.save()` over the abstract store: replace the
stored document having the same id with the updated in-memory document.
In the real program a `save()` after `content.summary = ...` persists
nothing, because `summary` is not a schema path; the schema-faithful
behaviour is modelled by `strictSummarize`. -/
def saveContent (db : DB) (c : ContentRec) : DB :=
  { db with contents := db.contents.map (fun x => if x.id = c.id then c else x) }

/-- `addContentSource` from `src/services/content.service.ts` (lines 13-28):
looks the name up; if present, throws "Content source already exists";
otherwise creates and returns the new Source document. -/
def addContentSource (db : DB) (source : String) : Except String (SourceRec × DB) :=
  match db.sources.find? (sourceNameFilter source) with
  | some _ => .error "Content source already exists"
  | none =>
    let addSource : SourceRec := { id := db.nextId, name := source }
    .ok (addSource, { db with sources := db.sources ++ [addSource], nextId := db.nextId + 1 })

/-- The guarded source-registration step of `addContent`
(`content.controller.ts` lines 192-197): `Source.findOne({ name: source })`,
and only when absent, `addContentSource(source)`.  This composition is the
specification's `ensureSource`; when the source exists the controller keeps
the found document (`existSource`) and persists nothing. -/
def ensureSource (db : DB) (source : String) : Except String (SourceRec × DB) :=
  match db.sources.find? (sourceNameFilter source) with
  | some existSource => .ok (existSource, db)
  | none => addContentSource db source

/-- The `if (source) { ... }` wrapper around `ensureSource` in `addContent`:
with no source supplied the step is skipped. -/
def registerSourceIfNew (db : DB) (source : Option String) : Except String DB :=
  match source with
  | none => .ok db
  | some s => (ensureSource db s).map (fun p => p.2)

/-- Outcome of `addContent`, tagged by the `sendResponse` call made:
missing fields (400), duplicate for this owner carrying the existing
document (409), created carrying the new document (200), or an error
propagated to the error-handling middleware (500; unreachable in this
model, kept for fidelity to the `addContentSource` throw). -/
inductive AddContentResult where
  | missingFields : AddContentResult
  | serverError : AddContentResult
  | duplicate : ContentRec → AddContentResult
  | created : ContentRec → AddContentResult
  deriving Repr, DecidableEq

/-- HTTP status code sent for each `addContent` outcome. -/
def AddContentResult.statusCode : AddContentResult → Nat
  | .missingFields => 400
  | .serverError => 500
  | .duplicate _ => 409
  | .created _ => 200

/-- The summarization tail of `addContent` (lines 237-245): when a source is
supplied, call `generateSummary` (= `gen`); on success store the summary on
the new document and save; on failure the error is logged and swallowed and
the already-persisted document is left as is.  Returns the response
document, the store, and whether `gen` was invoked. -/
def addContentSummarize (db2 : DB) (content : ContentRec) (link : String)
    (source : Option String) (gen : String → String → Except String String) :
    AddContentResult × DB × Bool :=
  match source with
  | some s =>
    match gen s link with
    | .ok summary =>
      let updated := { content with summary := summary }
      (.created updated, saveContent db2 updated, true)
    | .error _ => (.created content, db2, true)
  | none => (.created content, db2, false)

/-- The persistence part of `addContent` (lines 199-247), run after source
registration: per-owner duplicate check (line 200, responds 409 with the
existing document), summary-reuse lookup (line 213), `Content.create`
(line 219), then either copy the found non-empty summary onto the new
document and save (lines 233-236) or fall through to summarization. -/
def addContentPersist (db1 : DB) (userId : Nat) (link ctype title : String)
    (tags : List Nat) (source : Option String) (now : Nat)
    (gen : String → String → Except String String) :
    AddContentResult × DB × Bool :=
  match db1.contents.find? (dupFilter link userId) with
  | some existingContentForUser => (.duplicate existingContentForUser, db1, false)
  | none =>
    let existingContentWithSummary := db1.contents.find? (summaryFilter link)
    let content : ContentRec :=
      { id := db1.nextId, link := link, ctype := ctype, title := title,
        tags := tags, userId := userId, source := source, summary := "",
        createdAt := now }
    let db2 : DB := { db1 with contents := db1.contents ++ [content], nextId := db1.nextId + 1 }
    match existingContentWithSummary with
    | some c0 =>
      if c0.summary ≠ "" then
        let updated := { content with summary := c0.summary }
        (.created updated, saveContent db2 updated, false)
      else
        addContentSummarize db2 content link source gen
    | none => addContentSummarize db2 content link source gen

/-- `addContent` from `src/controller/content.controller.ts` (lines
179-252, the current version): required-field validation, guarded source
registration, then the persistence/summarization pipeline.  `tags ?? []` is
modelled by the caller passing the list directly; `now` is the creation
timestamp assigned by the store. -/
def addContent (db : DB) (userId : Nat) (link ctype title : String)
    (tags : List Nat) (source : Option String) (now : Nat)
    (gen : String → String → Except String String) :
    AddContentResult × DB × Bool :=
  if link = "" ∨ ctype = "" ∨ title = "" then (.missingFields, db, false)
  else
    match registerSourceIfNew db source with
    | .error _ => (.serverError, db, false)
    | .ok db1 => addContentPersist db1 userId link ctype title tags source now gen

/-- JavaScript's `parseInt(q) || d` on an optional query parameter: `none`
models an absent or non-numeric value (`parseInt` gives `NaN`, which is
falsy), and an explicit `0` is falsy as well, so both fall back to the
default `d`. -/
def orDefault (q : Option Nat) (d : Nat) : Nat :=
  match q with
  | some n => if n = 0 then d else n
  | none => d

/-- The filter document of `getAllContent` / `getBrainLink`:
`{ userId, source }` when a source query parameter is given, `{ userId }`
otherwise. -/
def matchesFilter (userId : Nat) (sourceFilter : Option String) (c : ContentRec) : Bool :=
  decide (c.userId = userId) &&
    match sourceFilter with
    | some f => decide (c.source = some f)
    | none => true

/-- Insert a document into a list sorted by `createdAt` descending. -/
def insertDesc (c : ContentRec) : List ContentRec → List ContentRec
  | [] => [c]
  | x :: xs => if x.createdAt ≤ c.createdAt then c :: x :: xs else x :: insertDesc c xs

/-- Mongo's `sort({ createdAt: -1 })`: the matching documents ordered
newest-first by creation time (insertion sort; the store's order among
equal timestamps is unspecified, any stable choice is a faithful model). -/
def sortByCreatedDesc (l : List ContentRec) : List ContentRec :=
  l.foldr insertDesc []

/-- The shared query pipeline of `getAllContent` (content controller lines
276-293) and `getBrainLink` (link controller): compute page defaults,
`skip = (pageNumber - 1) * pageSize`, `limit = pageSize`, filter by owner
(and source when given), sort newest-first, slice, and count the matching
documents ignoring pagination (`countDocuments(filter)`). -/
def listForOwner (db : DB) (userId : Nat) (pageNumber pageSize : Option Nat)
    (sourceFilter : Option String) : List ContentRec × Nat :=
  let pN := orDefault pageNumber 1
  let pS := orDefault pageSize 10
  let skip := (pN - 1) * pS
  let limit := pS
  let filtered := db.contents.filter (matchesFilter userId sourceFilter)
  (((sortByCreatedDesc filtered).drop skip).take limit, filtered.length)

/-- `getAllContent` from `src/controller/content.controller.ts` (lines
270-309): always responds 200 with the page and the total count (the
`!fetchAllContent` guard is dead code, as `find` yields an array). -/
def getAllContent (db : DB) (userId : Nat) (pageNumber pageSize : Option Nat)
    (sourceFilter : Option String) : Nat × List ContentRec × Nat :=
  let r := listForOwner db userId pageNumber pageSize sourceFilter
  (200, r.1, r.2)

/-- Mongoose's `Content.findByIdAndDelete(arg)`: deletion by `_id` alone.
When `arg` is a plain object, Mongoose casts it to an ObjectId by
extracting its `_id` field, so in `findByIdAndDelete({ _id: contentId,
userId })` the `userId` key is dropped and the document with id
`contentId` is deleted regardless of its owner. -/
def findByIdAndDelete (db : DB) (id : Nat) : DB :=
  { db with contents := removeFirst (fun c => decide (c.id = id)) db.contents }

/-- `deleteContent` from `src/controller/content.controller.ts` (lines
326-348): calls `Content.findByIdAndDelete({ _id: contentId, userId })`
and responds 200.  Because `findByIdAndDelete` deletes by `_id` alone, the
caller's `userId` has no effect on the outcome. -/
def deleteContent (db : DB) (userId : Nat) (contentId : Nat) : Nat × DB :=
  (200, findByIdAndDelete db contentId)

/-- Outcome of `createBrainLink` (`link.controller.ts` lines 75-129),
tagged by the response sent: an existing link returned unchanged (200,
"Here is your link"), a newly created link (201), or the disable path
(200, "Link deleted successfully"). -/
inductive BrainLinkResult where
  | linkExists : String → BrainLinkResult
  | linkCreated : String → BrainLinkResult
  | linkDeleted : BrainLinkResult
  deriving Repr, DecidableEq

/-- HTTP status code sent for each `createBrainLink` outcome. -/
def BrainLinkResult.statusCode : BrainLinkResult → Nat
  | .linkExists _ => 200
  | .linkCreated _ => 201
  | .linkDeleted => 200

/-- The URL `FRONTEND_BASE_URL + "/brain/" + hash` built by
`createBrainLink`. -/
def brainUrl (baseUrl hash : String) : String :=
  baseUrl ++ "/brain/" ++ hash

/-- `createBrainLink` from the link controller (lines 75-129).  With
`shareBrain = true`: if the owner already has a collection link (no
`contentId`), return its URL unchanged; otherwise create a link with a
fresh 20-character hash (`generateHash(20)`; passed here as `freshHash`)
and return its URL.  With `shareBrain = false`: `findOneAndDelete` the
owner's collection link and respond 200. -/
def createBrainLink (db : DB) (userId : Nat) (shareBrain : Bool)
    (freshHash : String) (baseUrl : String) : BrainLinkResult × DB :=
  if shareBrain then
    match db.links.find? (collectionLinkFilter userId) with
    | some existLink => (.linkExists (brainUrl baseUrl existLink.hash), db)
    | none =>
      let newLink : LinkRec := { id := db.nextId, hash := freshHash, userId := userId, contentId := none }
      (.linkCreated (brainUrl baseUrl freshHash),
        { db with links := db.links ++ [newLink], nextId := db.nextId + 1 })
  else
    (.linkDeleted, { db with links := removeFirst (collectionLinkFilter userId) db.links })

/-- `createLink` from the link controller (lines 28-63): always creates a
new Link carrying the given `contentId` and a fresh 10-character hash
(`generateHash(10)`; passed here as `freshHash`), and responds 201 with
the created document. -/
def createLink (db : DB) (userId : Nat) (contentId : Nat) (freshHash : String) :
    LinkRec × DB :=
  let newLink : LinkRec := { id := db.nextId, hash := freshHash, userId := userId, contentId := some contentId }
  (newLink, { db with links := db.links ++ [newLink], nextId := db.nextId + 1 })

/-- Outcome of `getBrainLink` (lines 149-200): hash unknown (411, "Sorry
Wrong Url!!!"), or 200 with the link owner's id (whose username the code
resolves for display), the content page, and the total count. -/
inductive GetBrainResult where
  | wrongUrl : GetBrainResult
  | ok : Nat → List ContentRec → Nat → GetBrainResult
  deriving Repr, DecidableEq

/-- HTTP status code sent for each `getBrainLink` outcome. -/
def GetBrainResult.statusCode : GetBrainResult → Nat
  | .wrongUrl => 411
  | .ok _ _ _ => 200

/-- `getBrainLink` from the link controller (lines 149-200): looks up the
Link by `hash` only (any link document matches, whether or not it carries
a `contentId`); if absent responds 411; otherwise pages through the
*owner's whole content collection* exactly as `getAllContent` does (the
`!content` guard is dead code, as `find` yields an array). -/
def getBrainLink (db : DB) (hash : String) (pageNumber pageSize : Option Nat)
    (sourceFilter : Option String) : GetBrainResult :=
  match db.links.find? (hashFilter hash) with
  | none => .wrongUrl
  | some link =>
    let r := listForOwner db link.userId pageNumber pageSize sourceFilter
    .ok link.userId r.1 r.2

/-- The standard base64 digit alphabet used by Node's
`Buffer.toString("base64")`. -/
def base64Alphabet : List Char :=
  "ABCDEFGHIJKLMNOPQRSTUVWXYZabcdefghijklmnopqrstuvwxyz0123456789+/".toList

/-- The base64 digit of index `i` (reduced mod 64; indices produced by the
encoder are already below 64 for byte inputs). -/
def b64char (i : Nat) : Char :=
  base64Alphabet.getD (i % 64) 'A'

/-- Base64 encoding of a byte sequence as performed by
`Buffer.toString("base64")`: three bytes become four digits; a trailing
group of one or two bytes is padded with `'='` to a four-character block. -/
def base64Encode : List Nat → List Char
  | [] => []
  | [b1] => [b64char (b1 / 4), b64char (b1 % 4 * 16), '=', '=']
  | [b1, b2] => [b64char (b1 / 4), b64char (b1 % 4 * 16 + b2 / 16), b64char (b2 % 16 * 4), '=']
  | b1 :: b2 :: b3 :: rest =>
    b64char (b1 / 4) :: b64char (b1 % 4 * 16 + b2 / 16) ::
      b64char (b2 % 16 * 4 + b3 / 64) :: b64char (b3 % 64) :: base64Encode rest

/-- `Math.ceil((length * 3) / 4)`: the number of random bytes drawn by
`generateHash`. -/
def hashByteLen (n : Nat) : Nat :=
  (3 * n + 3) / 4

/-- The two chained `replace` calls of `generateHash`: `'+' -> '-'` then
`'/' -> '_'`. -/
def urlRepl (c : Char) : Char :=
  if c = '+' then '-' else if c = '/' then '_' else c

/-- `generateHash` from the link controller (lines 66-73):
`randomBytes(Math.ceil((length * 3) / 4)).toString("base64").slice(0,
length).replace(/\+/g, "-").replace(/\//g, "_").replace(/=/g, "")`.
The random bytes are passed explicitly; the result is the character
sequence of the returned string. -/
def generateHash (length : Nat) (bytes : List Nat) : List Char :=
  (((base64Encode bytes).take length).map urlRepl).filter (fun c => decide (c ≠ '='))

/-- The minimum hash length enforced by `createLinkSchema` in
`src/dto/link.dto.ts` (`z.string().min(7)`). -/
def hashMinLength : Nat := 7

/-! ## The summary path as actually persisted

The Content schema in `content.model.ts` declares `link`, `type`, `title`,
`tags`, `userId`, `source` — and no `summary` path.  Under Mongoose's
default strict mode an undeclared path is not persisted by `save()`, is
not serialized into responses, and its `$exists: true` condition matches
no stored document.  The definitions below embed the same `addContent`
control flow against the schema as persisted, to settle what the
summary-reuse branch can actually do in the program: the reuse lookup is
dead code, assigned summaries are dropped, and the summarizer is invoked
whenever a source is supplied and no per-owner duplicate exists. -/

/-- A Content document as actually persisted by the schema in
`content.model.ts`: the declared paths only — there is no `summary`
field. -/
structure StoredContent where
  id : Nat
  link : String
  ctype : String
  title : String
  tags : List Nat
  userId : Nat
  source : Option String
  createdAt : Nat
  deriving Repr, DecidableEq

/-- The store under the summary-less schema: contents plus the source
registry (share links play no part in the ingestion pipeline). -/
structure StrictDB where
  contents : List StoredContent
  sources : List SourceRec
  nextId : Nat
  deriving Repr, DecidableEq

/-- Whether a stored document has a non-empty `summary` field: the schema
declares no such path, so no persisted document ever does — the condition
`summary: { $exists: true, $ne: "" }` fails on every stored document. -/
def strictHasNonEmptySummary (_ : StoredContent) : Bool := false

/-- The reuse-lookup filter `{ link, summary: { $exists: true, $ne: "" } }`
evaluated against schema-persisted documents. -/
def strictSummaryFilter (link : String) (c : StoredContent) : Bool :=
  decide (c.link = link) && strictHasNonEmptySummary c

/-- The duplicate-check filter `{ link, userId }` against schema-persisted
documents. -/
def strictDupFilter (link : String) (userId : Nat) (c : StoredContent) : Bool :=
  decide (c.link = link ∧ c.userId = userId)

/-- `addContentSource` over the strict store (same
`src/services/content.service.ts` lines as `addContentSource`). -/
def strictAddContentSource (db : StrictDB) (source : String) :
    Except String (SourceRec × StrictDB) :=
  match db.sources.find? (sourceNameFilter source) with
  | some _ => .error "Content source already exists"
  | none =>
    let addSource : SourceRec := ⟨db.nextId, source⟩
    .ok (addSource, { db with sources := db.sources ++ [addSource], nextId := db.nextId + 1 })

/-- The guarded source-registration step (controller lines 192-197) over
the strict store. -/
def strictRegisterSource (db : StrictDB) (source : Option String) :
    Except String StrictDB :=
  match source with
  | none => .ok db
  | some s =>
    match db.sources.find? (sourceNameFilter s) with
    | some _ => .ok db
    | none => (strictAddContentSource db s).map (fun p => p.2)

/-- Outcome of `addContent` over the summary-less schema (the `created`
document carries no summary — the type has no such field, matching what
`save()` persists and what the response serializes). -/
inductive StrictAddResult where
  | missingFields : StrictAddResult
  | serverError : StrictAddResult
  | duplicate : StoredContent → StrictAddResult
  | created : StoredContent → StrictAddResult
  deriving Repr, DecidableEq

/-- The summarization tail (controller lines 237-245) under strict mode:
`generateSummary` is invoked whenever a source is supplied; whether it
succeeds or fails, the subsequent `content.summary = ...; save()` touches
no schema path, so the stored document is unchanged either way and the
summary text is dropped. -/
def strictSummarize (db2 : StrictDB) (content : StoredContent) (link : String)
    (source : Option String) (gen : String → String → Except String String) :
    StrictAddResult × StrictDB × Bool :=
  match source with
  | some s =>
    match gen s link with
    | .ok _ => (.created content, db2, true)
    | .error _ => (.created content, db2, true)
  | none => (.created content, db2, false)

/-- `addContent` (controller lines 179-252) over the schema as persisted:
identical control flow to `addContent`, but the reuse lookup evaluates the
summary condition against stored documents, where it can never match, and
even a matched document would expose no `.summary`, so the truthy check
`existingContentWithSummary?.summary` fails and control always falls to
the `else if (source)` summarization branch. -/
def strictAddContent (db : StrictDB) (userId : Nat) (link ctype title : String)
    (tags : List Nat) (source : Option String) (now : Nat)
    (gen : String → String → Except String String) :
    StrictAddResult × StrictDB × Bool :=
  if link = "" ∨ ctype = "" ∨ title = "" then (.missingFields, db, false)
  else
    match strictRegisterSource db source with
    | .error _ => (.serverError, db, false)
    | .ok db1 =>
      match db1.contents.find? (strictDupFilter link userId) with
      | some existing => (.duplicate existing, db1, false)
      | none =>
        let existingContentWithSummary := db1.contents.find? (strictSummaryFilter link)
        let content : StoredContent :=
          ⟨db1.nextId, link, ctype, title, tags, userId, source, now⟩
        let db2 : StrictDB :=
          { db1 with contents := db1.contents ++ [content], nextId := db1.nextId + 1 }
        match existingContentWithSummary with
        | some _ => strictSummarize db2 content link source gen
        | none => strictSummarize db2 content link source gen

/-! ## General store lemmas -/

/-- `find?` skips a whole segment in which nothing matches. -/
theorem find?_append_none {α : Type} {p : α → Bool} {l1 l2 : List α}
    (h : l1.find? p = none) : (l1 ++ l2).find? p = l2.find? p := by
  induction l1 with
  | nil => rfl
  | cons x xs ih =>
    cases hx : p x with
    | true => simp [List.find?, hx] at h
    | false =>
      simp only [List.find?, hx] at h
      simp only [List.cons_append, List.find?, hx]
      exact ih h

/-- `removeFirst` leaves a whole segment alone when nothing in it
matches. -/
theorem removeFirst_append_none {α : Type} {p : α → Bool} {l1 l2 : List α}
    (h : l1.find? p = none) : removeFirst p (l1 ++ l2) = l1 ++ removeFirst p l2 := by
  induction l1 with
  | nil => rfl
  | cons x xs ih =>
    cases hx : p x with
    | true => simp [List.find?, hx] at h
    | false =>
      simp only [List.find?, hx] at h
      simp only [List.cons_append, removeFirst, hx, if_false]
      simp [ih h]

/-- The source-registration step always succeeds and never touches the
content or link collections. -/
theorem registerSourceIfNew_exists (db : DB) (source : Option String) :
    ∃ db', registerSourceIfNew db source = .ok db' ∧
      db'.contents = db.contents ∧ db'.links = db.links := by
  cases source with
  | none => exact ⟨db, rfl, rfl, rfl⟩
  | some s =>
    cases h : db.sources.find? (sourceNameFilter s) with
    | some r =>
      exact ⟨db, by simp [registerSourceIfNew, ensureSource, h, Except.map], rfl, rfl⟩
    | none =>
      refine ⟨⟨db.contents, db.sources ++ [⟨db.nextId, s⟩], db.links, db.nextId + 1⟩,
        ?_, rfl, rfl⟩
      simp [registerSourceIfNew, ensureSource, addContentSource, h, Except.map]

/-! ## Claim theorems -/

/-- C1: a second submission of the same link by the same owner does not
create a second Content record: `addContent` finds the existing
`(owner, link)` record, short-circuits, and returns that existing record
with the DuplicateForOwner (HTTP 409) outcome; the Content collection is
unchanged. -/
theorem addContent_owner_dedup (db : DB) (userId : Nat)
    (link ctype title : String) (tags : List Nat) (source : Option String)
    (now : Nat) (gen : String → String → Except String String)
    (existing : ContentRec)
    (hfields : ¬(link = "" ∨ ctype = "" ∨ title = ""))
    (hdup : db.contents.find? (dupFilter link userId) = some existing) :
    ∃ db', addContent db userId link ctype title tags source now gen =
        (.duplicate existing, db', false) ∧
      db'.contents = db.contents ∧
      (AddContentResult.duplicate existing).statusCode = 409 := by
  obtain ⟨db1, hreg, hc, -⟩ := registerSourceIfNew_exists db source
  refine ⟨db1, ?_, hc, rfl⟩
  simp only [addContent, if_neg hfields, hreg]
  simp only [addContentPersist, hc, hdup]

/-- Concrete store for the C1 witness: owner 1 already saved link
"https://x". -/
def dbC1 : DB :=
  { contents := [{ id := 1, link := "https://x", ctype := "video", title := "T",
                   tags := [], userId := 1, source := none, summary := "", createdAt := 0 }],
    sources := [], links := [], nextId := 2 }

/-- Witness for C1 at a concrete store and resubmission. -/
theorem addContent_owner_dedup_witness :
    ∃ db', addContent dbC1 1 "https://x" "video" "T2" [] none 5 (fun _ _ => .error "e") =
        (.duplicate { id := 1, link := "https://x", ctype := "video", title := "T",
                      tags := [], userId := 1, source := none, summary := "", createdAt := 0 },
          db', false) ∧
      db'.contents = dbC1.contents ∧
      (AddContentResult.duplicate
        { id := 1, link := "https://x", ctype := "video", title := "T",
          tags := [], userId := 1, source := none, summary := "",
          createdAt := 0 }).statusCode = 409 :=
  addContent_owner_dedup dbC1 1 "https://x" "video" "T2" [] none 5 (fun _ _ => .error "e")
    _ (by decide) (by decide)

/-- Under the persisted schema the reuse lookup of `addContent` is dead
code: `findOne({ link, summary: { $exists: true, $ne: "" } })` never
matches any stored document, whatever the store holds. -/
theorem strictSummaryFilter_never_matches (db : StrictDB) (link : String) :
    db.contents.find? (strictSummaryFilter link) = none := by
  rw [List.find?_eq_none]
  intro c hc
  simp [strictSummaryFilter, strictHasNonEmptySummary]

/-- C2 fails on the code: the Content schema has no `summary` path, so the
reuse lookup matches no stored document, the Summary Provider IS invoked
for a second owner's submission of an already-saved link, and the
persisted and returned document carries no summary at all (the copied
summary the claim describes cannot exist; even a succeeding provider
call's text is dropped by `save()`).  Evaluated at the spec's P3 scenario:
owner 1 already saved the link, owner 2 resubmits it with source
"youtube" and a provider returning "S" — the result's invocation flag is
`true` and the new stored document holds only the schema paths. -/
theorem strict_summary_reuse_dead :
    (∀ c ∈ (⟨[⟨1, "https://x", "video", "T", [], 1, some "youtube", 0⟩],
        [⟨0, "youtube"⟩], 2⟩ : StrictDB).contents,
      strictSummaryFilter "https://x" c = false) ∧
    strictAddContent ⟨[⟨1, "https://x", "video", "T", [], 1, some "youtube", 0⟩],
        [⟨0, "youtube"⟩], 2⟩ 2 "https://x" "video" "T2" [] (some "youtube") 5
        (fun _ _ => .ok "S") =
      (.created ⟨2, "https://x", "video", "T2", [], 2, some "youtube", 5⟩,
        ⟨[⟨1, "https://x", "video", "T", [], 1, some "youtube", 0⟩,
          ⟨2, "https://x", "video", "T2", [], 2, some "youtube", 5⟩],
          [⟨0, "youtube"⟩], 3⟩, true) :=
  ⟨by decide, rfl⟩

/-- C3: when no reusable summary exists and a source is supplied, a failing
Summary Provider never aborts creation: `addContent` still persists and
returns the record with a 200 outcome and an empty summary (and the
provider was indeed invoked). -/
theorem addContent_summarize_failure_persists (db : DB) (userId : Nat)
    (link ctype title : String) (tags : List Nat) (s : String) (now : Nat)
    (gen : String → String → Except String String) (e : String)
    (hfields : ¬(link = "" ∨ ctype = "" ∨ title = ""))
    (hnodup : db.contents.find? (dupFilter link userId) = none)
    (hnosum : db.contents.find? (summaryFilter link) = none)
    (hgen : gen s link = .error e) :
    ∃ r db', addContent db userId link ctype title tags (some s) now gen =
        (.created r, db', true) ∧
      r.summary = "" ∧ r ∈ db'.contents ∧
      (AddContentResult.created r).statusCode = 200 := by
  obtain ⟨db1, hreg, hc, -⟩ := registerSourceIfNew_exists db (some s)
  refine ⟨⟨db1.nextId, link, ctype, title, tags, userId, some s, "", now⟩,
    ⟨db1.contents ++ [⟨db1.nextId, link, ctype, title, tags, userId, some s, "", now⟩],
      db1.sources, db1.links, db1.nextId + 1⟩, ?_, rfl, ?_, rfl⟩
  · simp only [addContent, if_neg hfields, hreg]
    simp only [addContentPersist, hc, hnodup, hnosum]
    simp only [addContentSummarize, hgen]
  · exact List.mem_append_right _ (List.mem_singleton_self _)

/-- Witness for C3: on an empty store, a submission with source "youtube"
whose provider call fails still yields a 200 outcome with empty summary. -/
theorem addContent_summarize_failure_persists_witness :
    ∃ r db', addContent ⟨[], [], [], 1⟩ 1 "https://x" "video" "T" [] (some "youtube") 5
        (fun _ _ => .error "boom") = (.created r, db', true) ∧
      r.summary = "" ∧ r ∈ db'.contents ∧
      (AddContentResult.created r).statusCode = 200 :=
  addContent_summarize_failure_persists ⟨[], [], [], 1⟩ 1 "https://x" "video" "T" []
    "youtube" 5 (fun _ _ => .error "boom") "boom" (by decide) rfl rfl rfl

/-- C4 fails on the code: `deleteContent` passes the filter object
`{ _id: contentId, userId }` to `findByIdAndDelete`, which deletes by
`_id` alone, so a caller (user 2) deletes a record owned by a different
user (user 1) instead of matching nothing; the call still responds 200 but
the Content collection shrinks. -/
theorem deleteContent_deletes_other_owners_record :
    (deleteContent ⟨[⟨1, "https://x", "video", "T", [], 1, none, "", 0⟩], [], [], 2⟩
        2 1).1 = 200 ∧
      (deleteContent ⟨[⟨1, "https://x", "video", "T", [], 1, none, "", 0⟩], [], [], 2⟩
        2 1).2.contents = [] := by
  constructor <;> rfl

/-- C5: the registry's ensure-source step is idempotent.  When a Source
with the name exists, it is returned with no error and no new record (the
store is unchanged); starting from a registry without the name, two
successive calls return the same record, the second leaves the store
unchanged, and exactly one Source record with that name exists
afterwards. -/
theorem ensureSource_idempotent (db : DB) (name : String) :
    (∀ s0, db.sources.find? (sourceNameFilter name) = some s0 →
      ensureSource db name = .ok (s0, db)) ∧
    (db.sources.find? (sourceNameFilter name) = none →
      ∃ s1 db1, ensureSource db name = .ok (s1, db1) ∧
        ensureSource db1 name = .ok (s1, db1) ∧
        (db1.sources.filter (sourceNameFilter name)).length = 1) := by
  constructor
  · intro s0 h0
    simp [ensureSource, h0]
  · intro hnone
    have hall : ∀ x ∈ db.sources, ¬ sourceNameFilter name x = true :=
      List.find?_eq_none.mp hnone
    have hfilter : db.sources.filter (sourceNameFilter name) = [] :=
      List.filter_eq_nil_iff.mpr hall
    refine ⟨⟨db.nextId, name⟩,
      ⟨db.contents, db.sources ++ [⟨db.nextId, name⟩], db.links, db.nextId + 1⟩,
      ?_, ?_, ?_⟩
    · simp [ensureSource, addContentSource, hnone]
    · have hfind : (db.sources ++ [(⟨db.nextId, name⟩ : SourceRec)]).find?
          (sourceNameFilter name) = some ⟨db.nextId, name⟩ := by
        rw [find?_append_none hnone]
        simp [List.find?, sourceNameFilter]
      simp [ensureSource, hfind]
    · simp only [List.filter_append, hfilter, List.nil_append]
      simp [sourceNameFilter]

/-- Concrete registries for the C5 witness. -/
def dbC5 : DB := ⟨[], [⟨3, "github"⟩], [], 4⟩

/-- Witness for C5: a registry already holding "github" returns that record
unchanged, and from an empty registry two calls leave exactly one "github"
record. -/
theorem ensureSource_idempotent_witness :
    ensureSource dbC5 "github" = .ok (⟨3, "github"⟩, dbC5) ∧
    (∃ s1 db1, ensureSource ⟨[], [], [], 1⟩ "github" = .ok (s1, db1) ∧
      ensureSource db1 "github" = .ok (s1, db1) ∧
      (db1.sources.filter (sourceNameFilter "github")).length = 1) :=
  ⟨(ensureSource_idempotent dbC5 "github").1 ⟨3, "github"⟩ (by decide),
   (ensureSource_idempotent ⟨[], [], [], 1⟩ "github").2 rfl⟩

/-- C10: in `addContent`, unknown-source registration runs before the
per-owner duplicate check, so a submission that ends in the 409 duplicate
outcome but names an unregistered source still creates that Source record:
the Content collection is unchanged while the Source collection grows. -/
theorem addContent_duplicate_still_registers_source (db : DB) (userId : Nat)
    (link ctype title : String) (tags : List Nat) (s : String) (now : Nat)
    (gen : String → String → Except String String) (existing : ContentRec)
    (hfields : ¬(link = "" ∨ ctype = "" ∨ title = ""))
    (hunknown : db.sources.find? (sourceNameFilter s) = none)
    (hdup : db.contents.find? (dupFilter link userId) = some existing) :
    ∃ db', addContent db userId link ctype title tags (some s) now gen =
        (.duplicate existing, db', false) ∧
      db'.contents = db.contents ∧
      db'.sources = db.sources ++ [⟨db.nextId, s⟩] := by
  have hreg : registerSourceIfNew db (some s) =
      .ok ⟨db.contents, db.sources ++ [⟨db.nextId, s⟩], db.links, db.nextId + 1⟩ := by
    simp [registerSourceIfNew, ensureSource, addContentSource, hunknown, Except.map]
  refine ⟨⟨db.contents, db.sources ++ [⟨db.nextId, s⟩], db.links, db.nextId + 1⟩,
    ?_, rfl, rfl⟩
  simp only [addContent, if_neg hfields, hreg]
  simp only [addContentPersist, hdup]

/-- Witness for C10: a duplicate submission naming the unknown source
"github" leaves the contents unchanged but grows the registry. -/
theorem addContent_duplicate_still_registers_source_witness :
    ∃ db', addContent dbC1 1 "https://x" "video" "T2" [] (some "github") 5
        (fun _ _ => .error "e") =
      (.duplicate ⟨1, "https://x", "video", "T", [], 1, none, "", 0⟩, db', false) ∧
      db'.contents = dbC1.contents ∧
      db'.sources = dbC1.sources ++ [⟨dbC1.nextId, "github"⟩] :=
  addContent_duplicate_still_registers_source dbC1 1 "https://x" "video" "T2" []
    "github" 5 (fun _ _ => .error "e") _ (by decide) rfl (by decide)

/-- Sorting by creation time preserves the number of documents. -/
theorem length_insertDesc (c : ContentRec) (l : List ContentRec) :
    (insertDesc c l).length = l.length + 1 := by
  induction l with
  | nil => rfl
  | cons x xs ih =>
    rw [insertDesc]
    split
    · rfl
    · simp [ih]

/-- Sorting by creation time preserves the number of documents. -/
theorem length_sortByCreatedDesc (l : List ContentRec) :
    (sortByCreatedDesc l).length = l.length := by
  induction l with
  | nil => rfl
  | cons x xs ih =>
    show (insertDesc x (sortByCreatedDesc xs)).length = xs.length + 1
    rw [length_insertDesc, ih]

/-- Membership is preserved by ordered insertion. -/
theorem mem_insertDesc {x c : ContentRec} {l : List ContentRec} :
    x ∈ insertDesc c l ↔ x = c ∨ x ∈ l := by
  induction l with
  | nil => simp [insertDesc]
  | cons y ys ih =>
    rw [insertDesc]
    split
    · simp [or_comm, or_assoc, or_left_comm]
    · simp [ih]
      tauto

/-- Sorting by creation time preserves membership. -/
theorem mem_sortByCreatedDesc {x : ContentRec} {l : List ContentRec} :
    x ∈ sortByCreatedDesc l ↔ x ∈ l := by
  induction l with
  | nil => exact Iff.rfl
  | cons y ys ih =>
    show x ∈ insertDesc y (sortByCreatedDesc ys) ↔ _
    rw [mem_insertDesc, ih]
    simp

/-- C6: `getAllContent` returns exactly the caller's records (restricted by
the source filter when given) sorted newest-first, sliced with
`skip = (pageNumber - 1) * pageSize` and `limit = pageSize`, together with
the total matching count ignoring pagination; `pageNumber` and `pageSize`
default to 1 and 10 when absent or non-numeric; and an owner with 25
records queried with `pageSize = 10`, `pageNumber = 3` gets exactly 5
records and count 25. -/
theorem getAllContent_pagination (db : DB) (u : Nat) (pN pS : Option Nat)
    (f : Option String) :
    (getAllContent db u pN pS f).2.2 = (db.contents.filter (matchesFilter u f)).length ∧
    (getAllContent db u pN pS f).2.1 =
      ((sortByCreatedDesc (db.contents.filter (matchesFilter u f))).drop
        ((orDefault pN 1 - 1) * orDefault pS 10)).take (orDefault pS 10) ∧
    (∀ c ∈ (getAllContent db u pN pS f).2.1, c.userId = u ∧
      ∀ s, f = some s → c.source = some s) ∧
    getAllContent db u none none f = getAllContent db u (some 1) (some 10) f ∧
    ((db.contents.filter (matchesFilter u f)).length = 25 → pN = some 3 → pS = some 10 →
      (getAllContent db u pN pS f).2.1.length = 5 ∧
        (getAllContent db u pN pS f).2.2 = 25) := by
  refine ⟨rfl, rfl, ?_, rfl, ?_⟩
  · intro c hc
    have hmem : c ∈ db.contents.filter (matchesFilter u f) := by
      have h1 := List.mem_of_mem_take hc
      have h2 := List.mem_of_mem_drop h1
      exact mem_sortByCreatedDesc.mp h2
    have hmf : matchesFilter u f c = true := List.of_mem_filter hmem
    simp only [matchesFilter, Bool.and_eq_true, decide_eq_true_eq] at hmf
    refine ⟨hmf.1, ?_⟩
    intro s hs
    subst hs
    have := hmf.2
    simpa using this
  · intro h25 h3 h10
    subst h3; subst h10
    constructor
    · show (((sortByCreatedDesc _).drop _).take _).length = 5
      rw [List.length_take, List.length_drop, length_sortByCreatedDesc, h25]
      rfl
    · exact h25

/-- C7: collection-share enable is idempotent and disable revokes
resolution.  Starting with no collection link for the owner and a fresh
hash, one enable call creates the link and returns its URL (201), a second
enable call returns the same URL (200) and leaves the store unchanged;
after disable deletes the collection link, resolving the old hash fails
with the WrongUrl (411) outcome. -/
theorem brainShare_idempotent_then_revoked (db : DB) (userId : Nat)
    (h1 h2 h3 baseUrl : String) (pN pS : Option Nat) (f : Option String)
    (hno : db.links.find? (collectionLinkFilter userId) = none)
    (hfresh : ∀ l ∈ db.links, l.hash ≠ h1) :
    ∃ db1, createBrainLink db userId true h1 baseUrl =
        (.linkCreated (brainUrl baseUrl h1), db1) ∧
      createBrainLink db1 userId true h2 baseUrl =
        (.linkExists (brainUrl baseUrl h1), db1) ∧
      ∃ db2, createBrainLink db1 userId false h3 baseUrl = (.linkDeleted, db2) ∧
        db2.links = db.links ∧
        getBrainLink db2 h1 pN pS f = .wrongUrl ∧
        GetBrainResult.wrongUrl.statusCode = 411 := by
  refine ⟨⟨db.contents, db.sources, db.links ++ [⟨db.nextId, h1, userId, none⟩],
    db.nextId + 1⟩, ?_, ?_, ?_⟩
  · simp [createBrainLink, hno]
  · have hfind : (db.links ++ [(⟨db.nextId, h1, userId, none⟩ : LinkRec)]).find?
        (collectionLinkFilter userId) = some ⟨db.nextId, h1, userId, none⟩ := by
      rw [find?_append_none hno]
      simp [List.find?, collectionLinkFilter]
    simp [createBrainLink, hfind]
  · refine ⟨⟨db.contents, db.sources, db.links, db.nextId + 1⟩, ?_, rfl, ?_, rfl⟩
    · have hrm : removeFirst (collectionLinkFilter userId)
          (db.links ++ [(⟨db.nextId, h1, userId, none⟩ : LinkRec)]) =
          db.links ++ removeFirst (collectionLinkFilter userId)
            [⟨db.nextId, h1, userId, none⟩] :=
        removeFirst_append_none hno
      simp [createBrainLink, hrm, removeFirst, collectionLinkFilter]
    · have hf2 : db.links.find? (hashFilter h1) = none := by
        rw [List.find?_eq_none]
        intro l hl
        simp only [hashFilter, decide_eq_true_eq]
        exact hfresh l hl
      simp [getBrainLink, hf2]

/-- Witness for C7 on an empty store with a fresh 20-character hash. -/
theorem brainShare_idempotent_then_revoked_witness :
    ∃ db1, createBrainLink ⟨[], [], [], 1⟩ 1 true "AAAAAAAAAAAAAAAAAAAB" "http://f" =
        (.linkCreated (brainUrl "http://f" "AAAAAAAAAAAAAAAAAAAB"), db1) ∧
      createBrainLink db1 1 true "CCCCCCCCCCCCCCCCCCCD" "http://f" =
        (.linkExists (brainUrl "http://f" "AAAAAAAAAAAAAAAAAAAB"), db1) ∧
      ∃ db2, createBrainLink db1 1 false "EEEEEEEEEEEEEEEEEEEF" "http://f" =
          (.linkDeleted, db2) ∧
        db2.links = ([] : List LinkRec) ∧
        getBrainLink db2 "AAAAAAAAAAAAAAAAAAAB" none none none = .wrongUrl ∧
        GetBrainResult.wrongUrl.statusCode = 411 :=
  brainShare_idempotent_then_revoked ⟨[], [], [], 1⟩ 1 "AAAAAAAAAAAAAAAAAAAB"
    "CCCCCCCCCCCCCCCCCCCD" "EEEEEEEEEEEEEEEEEEEF" "http://f" none none none
    rfl (by simp)

/-- Every base64 digit, after the URL-safe replacement, avoids the three
characters the claim excludes. -/
theorem urlRepl_b64char_safe (i : Nat) :
    urlRepl (b64char i) ≠ '+' ∧ urlRepl (b64char i) ≠ '/' ∧
      urlRepl (b64char i) ≠ '=' := by
  have h64 : i % 64 < 64 := Nat.mod_lt _ (by decide)
  have hall : ∀ j : Fin 64, urlRepl (base64Alphabet.getD j.val 'A') ≠ '+' ∧
      urlRepl (base64Alphabet.getD j.val 'A') ≠ '/' ∧
      urlRepl (base64Alphabet.getD j.val 'A') ≠ '=' := by decide
  simpa only [b64char] using hall ⟨i % 64, h64⟩

/-- Structure of a base64 encoding: digit characters followed by padding,
with the digit-block length determined by the byte count. -/
theorem base64Encode_structure (bytes : List Nat) :
    ∃ data pad, base64Encode bytes = data ++ pad ∧
      data.length = (4 * bytes.length + 2) / 3 ∧
      (∀ c ∈ data, ∃ i, c = b64char i) ∧
      (∀ c ∈ pad, c = '=') := by
  induction bytes using base64Encode.induct with
  | case1 =>
    exact ⟨[], [], rfl, rfl, by simp, by simp⟩
  | case2 b1 =>
    refine ⟨[b64char (b1 / 4), b64char (b1 % 4 * 16)], ['=', '='], rfl, by simp, ?_, ?_⟩
    · intro c hc
      simp only [List.mem_cons, List.not_mem_nil, or_false] at hc
      rcases hc with rfl | rfl
      · exact ⟨_, rfl⟩
      · exact ⟨_, rfl⟩
    · intro c hc
      simp only [List.mem_cons, List.not_mem_nil, or_false] at hc
      rcases hc with rfl | rfl <;> rfl
  | case3 b1 b2 =>
    refine ⟨[b64char (b1 / 4), b64char (b1 % 4 * 16 + b2 / 16), b64char (b2 % 16 * 4)],
      ['='], rfl, by simp, ?_, ?_⟩
    · intro c hc
      simp only [List.mem_cons, List.not_mem_nil, or_false] at hc
      rcases hc with rfl | rfl | rfl
      · exact ⟨_, rfl⟩
      · exact ⟨_, rfl⟩
      · exact ⟨_, rfl⟩
    · intro c hc
      simp only [List.mem_cons, List.not_mem_nil, or_false] at hc
      exact hc
  | case4 b1 b2 b3 rest ih =>
    obtain ⟨data, pad, henc, hdl, hdata, hpad⟩ := ih
    refine ⟨b64char (b1 / 4) :: b64char (b1 % 4 * 16 + b2 / 16) ::
      b64char (b2 % 16 * 4 + b3 / 64) :: b64char (b3 % 64) :: data, pad, ?_, ?_, ?_, hpad⟩
    · rw [base64Encode, henc]
      rfl
    · simp only [List.length_cons, hdl, List.length_cons]
      have h12 : 4 * (rest.length + 3) + 2 = (4 * rest.length + 2) + 3 * 4 := by ring
      rw [h12, Nat.add_mul_div_left _ _ (by decide : 0 < 3)]
    · intro c hc
      simp only [List.mem_cons] at hc
      rcases hc with rfl | rfl | rfl | rfl | h
      · exact ⟨_, rfl⟩
      · exact ⟨_, rfl⟩
      · exact ⟨_, rfl⟩
      · exact ⟨_, rfl⟩
      · exact hdata c h

/-- Characterization of `generateHash` for any requested length within the
digit block: exactly `n` characters, all avoiding '+', '/' and '='. -/
theorem generateHash_spec (n : Nat) (bytes : List Nat)
    (hn : n ≤ (4 * bytes.length + 2) / 3) :
    (generateHash n bytes).length = n ∧
    ∀ c ∈ generateHash n bytes, c ≠ '+' ∧ c ≠ '/' ∧ c ≠ '=' := by
  obtain ⟨data, pad, henc, hdl, hdata, hpad⟩ := base64Encode_structure bytes
  have hnd : n ≤ data.length := hdl ▸ hn
  have htake : (base64Encode bytes).take n = data.take n := by
    rw [henc, List.take_append_of_le_length hnd]
  have hmemtake : ∀ c ∈ data.take n, ∃ i, c = b64char i :=
    fun c hc => hdata c (List.mem_of_mem_take hc)
  have hfilter : ((data.take n).map urlRepl).filter (fun c => decide (c ≠ '=')) =
      (data.take n).map urlRepl := by
    apply List.filter_eq_self.mpr
    intro c hc
    obtain ⟨c0, hc0, rfl⟩ := List.mem_map.mp hc
    obtain ⟨i, rfl⟩ := hmemtake c0 hc0
    exact decide_eq_true (urlRepl_b64char_safe i).2.2
  constructor
  · rw [generateHash, htake, hfilter, List.length_map, List.length_take]
    exact Nat.min_eq_left hnd
  · intro c hc
    rw [generateHash, htake, hfilter] at hc
    obtain ⟨c0, hc0, rfl⟩ := List.mem_map.mp hc
    obtain ⟨i, rfl⟩ := hmemtake c0 hc0
    exact urlRepl_b64char_safe i

/-- C8: for the token lengths actually used (10 for item links, 20 for
collection links), `generateHash(n)` on its drawn
`Math.ceil(n * 3 / 4)` random bytes returns exactly `n` characters, none
of which is '+', '/' or the '=' padding character, and its length meets
the schema's minimum of 7. -/
theorem generateHash_urlSafe (n : Nat) (hn : n = 10 ∨ n = 20) (bytes : List Nat)
    (hlen : bytes.length = hashByteLen n) :
    (generateHash n bytes).length = n ∧
    (∀ c ∈ generateHash n bytes, c ≠ '+' ∧ c ≠ '/' ∧ c ≠ '=') ∧
    hashMinLength ≤ (generateHash n bytes).length := by
  have hle : n ≤ (4 * bytes.length + 2) / 3 := by
    rcases hn with rfl | rfl <;> rw [hlen] <;> decide
  obtain ⟨hlength, hsafe⟩ := generateHash_spec n bytes hle
  refine ⟨hlength, hsafe, ?_⟩
  rw [hlength]
  rcases hn with rfl | rfl <;> decide

/-- Witness for C8 at length 10 with 8 concrete random bytes. -/
theorem generateHash_urlSafe_witness :
    (generateHash 10 [255, 255, 255, 62, 63, 0, 1, 2]).length = 10 ∧
    (∀ c ∈ generateHash 10 [255, 255, 255, 62, 63, 0, 1, 2],
      c ≠ '+' ∧ c ≠ '/' ∧ c ≠ '=') ∧
    hashMinLength ≤ (generateHash 10 [255, 255, 255, 62, 63, 0, 1, 2]).length :=
  generateHash_urlSafe 10 (Or.inl rfl) [255, 255, 255, 62, 63, 0, 1, 2] (by decide)

/-- C9: possession of any persisted Link's hash (including a single-item
share link carrying a contentId) grants collection-level read access:
`getBrainLink` looks up only the hash and then pages through the link
owner's whole content collection; in particular, resolving the hash of a
link just created by `createLink` succeeds and returns the owner's
paginated collection. -/
theorem anyHash_grants_collection_access (db : DB) (hash : String)
    (lnk : LinkRec) (pN pS : Option Nat) (f : Option String)
    (hfind : db.links.find? (hashFilter hash) = some lnk) :
    getBrainLink db hash pN pS f =
      .ok lnk.userId (listForOwner db lnk.userId pN pS f).1
        (listForOwner db lnk.userId pN pS f).2 ∧
    (∀ userId contentId freshHash, (∀ l ∈ db.links, l.hash ≠ freshHash) →
      getBrainLink (createLink db userId contentId freshHash).2 freshHash pN pS f =
        .ok userId (listForOwner db userId pN pS f).1
          (listForOwner db userId pN pS f).2) := by
  constructor
  · simp [getBrainLink, hfind]
  · intro userId contentId freshHash hfresh
    have hnone : db.links.find? (hashFilter freshHash) = none := by
      rw [List.find?_eq_none]
      intro l hl
      simp only [hashFilter, decide_eq_true_eq]
      exact hfresh l hl
    have hfind2 : ((createLink db userId contentId freshHash).2).links.find?
        (hashFilter freshHash) = some ⟨db.nextId, freshHash, userId, some contentId⟩ := by
      show (db.links ++ [(⟨db.nextId, freshHash, userId, some contentId⟩ : LinkRec)]).find?
        (hashFilter freshHash) = _
      rw [find?_append_none hnone]
      simp [List.find?, hashFilter]
    simp only [getBrainLink, hfind2]
    rfl

/-- Witness for C9: a store holding one item link whose hash resolves to
the owner's collection, and a fresh item link whose hash also resolves. -/
theorem anyHash_grants_collection_access_witness :
    getBrainLink ⟨[⟨1, "L", "video", "T", [], 9, none, "", 0⟩], [],
        [⟨2, "itemhash123", 9, some 1⟩], 3⟩ "itemhash123" none none none =
      .ok 9 (listForOwner ⟨[⟨1, "L", "video", "T", [], 9, none, "", 0⟩], [],
          [⟨2, "itemhash123", 9, some 1⟩], 3⟩ 9 none none none).1
        (listForOwner ⟨[⟨1, "L", "video", "T", [], 9, none, "", 0⟩], [],
          [⟨2, "itemhash123", 9, some 1⟩], 3⟩ 9 none none none).2 ∧
    (∀ userId contentId freshHash,
      (∀ l ∈ (⟨[⟨1, "L", "video", "T", [], 9, none, "", 0⟩], [],
        [⟨2, "itemhash123", 9, some 1⟩], 3⟩ : DB).links, l.hash ≠ freshHash) →
      getBrainLink (createLink ⟨[⟨1, "L", "video", "T", [], 9, none, "", 0⟩], [],
          [⟨2, "itemhash123", 9, some 1⟩], 3⟩ userId contentId freshHash).2
          freshHash none none none =
        .ok userId (listForOwner ⟨[⟨1, "L", "video", "T", [], 9, none, "", 0⟩], [],
            [⟨2, "itemhash123", 9, some 1⟩], 3⟩ userId none none none).1
          (listForOwner ⟨[⟨1, "L", "video", "T", [], 9, none, "", 0⟩], [],
            [⟨2, "itemhash123", 9, some 1⟩], 3⟩ userId none none none).2) :=
  anyHash_grants_collection_access _ "itemhash123" ⟨2, "itemhash123", 9, some 1⟩
    none none none (by decide)

/-- Concrete store for the C6 witness: owner 7 has 25 records. -/
def dbC6 : DB :=
  ⟨(List.range 25).map (fun i => ⟨i, "L", "video", "T", [], 7, none, "", i⟩),
    [], [], 100⟩

/-- Witness for C6: page 3 of size 10 over 25 records yields 5 records and
count 25. -/
theorem getAllContent_pagination_witness :
    (getAllContent dbC6 7 (some 3) (some 10) none).2.1.length = 5 ∧
      (getAllContent dbC6 7 (some 3) (some 10) none).2.2 = 25 :=
  (getAllContent_pagination dbC6 7 (some 3) (some 10) none).2.2.2.2 (by rfl) rfl rfl
